import Mathlib

/-!
# CasaOS main service bootstrap (`main.go`)

A shallow embedding of `init` and `main` of the CasaOS main service.  Calls into
other packages (gateway, cron, net, systemd, config, logger) are recorded as
events of a trace, in program order, together with the value they returned; the
values those calls return are read from a `World`.  Constants of other packages
(`types.CURRENTVERSION`, `route.V2APIPath`, `route.V2DocPath`,
`constants.DefaultConfigPath`) are fields of `Consts`.
-/

namespace CasaOS

deriving instance DecidableEq for Except

/-- The constant `LOCALHOST` of `main.go`. -/
def LOCALHOST : String := "127.0.0.1"

/-- The variable `commit` of `main.go`. -/
def commit : String := "private build"

/-- The variable `date` of `main.go`. -/
def date : String := "private build"

/-- Named constants that `main.go` reads from other packages. -/
structure Consts where
  /-- The constant `types.CURRENTVERSION`. -/
  CURRENTVERSION : String
  /-- The constant `route.V2APIPath`. -/
  V2APIPath : String
  /-- The constant `route.V2DocPath`. -/
  V2DocPath : String
  /-- The constant `constants.DefaultConfigPath`. -/
  DefaultConfigPath : String
  deriving DecidableEq, Repr

/-- The type `model.Route`: the two fields `main` fills in. -/
structure Route where
  Path : String
  Target : String
  deriving DecidableEq, Repr

/-- The type `model.ChangePortRequest`. -/
structure ChangePortRequest where
  Port : String
  deriving DecidableEq, Repr

/-- The three routers built at the top of `main`. -/
inductive Router where
  | v1Router
  | v2Router
  | v2DocRouter
  deriving DecidableEq, Repr

/-- The type `util_http.HandlerMultiplexer`: its `HandlerMap`, as an association list. -/
structure HandlerMultiplexer where
  HandlerMap : List (String × Router)
  deriving DecidableEq, Repr

/-- The values of the `config` package that `init` and `main` read. -/
structure Config where
  /-- Field `config.AppInfo.LogPath`. -/
  LogPath : String
  /-- Field `config.AppInfo.LogSaveName`. -/
  LogSaveName : String
  /-- Field `config.AppInfo.LogFileExt`. -/
  LogFileExt : String
  /-- Field `config.AppInfo.DBPath`. -/
  DBPath : String
  /-- Field `config.CommonInfo.RuntimePath`. -/
  RuntimePath : String
  /-- Field `config.SystemConfigInfo.ConfigPath`. -/
  ConfigPath : String
  deriving DecidableEq, Repr

/-- What the outside world answers to the calls of `init` and `main`. -/
structure World where
  /-- The flag `-v`, after `flag.Parse()`. -/
  versionFlag : Bool
  /-- The flag `-c`, after `flag.Parse()`. -/
  configFlag : String
  /-- The flag `-db`, after `flag.Parse()`. -/
  dbFlag : String
  /-- The `config` values after `config.InitSetup`. -/
  config : Config
  /-- The error of `cron2.AddFunc`, if any. -/
  addFunc : Option String
  /-- The result of `net.Listen`: an error, or the listener, given by `listener.Addr().String()`. -/
  listen : Except String String
  /-- The error of the `i`-th (from 0) call of `CreateRoute`, if any. -/
  createRoute : Nat → Route → Option String
  /-- The error of `file.CreateFileAndWriteContent`, if any. -/
  writeFile : Option String
  /-- The result `(supported, err)` of `daemon.SdNotify`. -/
  sdNotify : Bool × Option String
  /-- The error `s.Serve(listener)` returns (`none` for `nil`). -/
  serve : Option String

/-- The calls `init`, `main` and the goroutine of `main` make, with the value each returned. -/
inductive Event where
  | flagParse
  | fmtPrintln (args : List String)
  | builtinPrintln (args : List String)
  | configInitSetup (path : String)
  | loggerLogInit (logPath logSaveName logFileExt : String)
  | sqliteGetDb (path : String)
  | serviceNewService (runtimePath : String)
  | cacheInit
  | getCPUThermalZone
  | routeInitFunction
  | initV1Router
  | initV2Router
  | initV2DocRouter
  | socketServerClose
  | cronNew
  | cronAddFunc (spec : String) (err : Option String)
  | cronStart
  | cronStop
  | netListen (network address : String) (res : Except String String)
  | createRoute (r : Route) (err : Option String)
  | goChangePortTask
  | sleepSeconds (n : Nat)
  | changePort (req : ChangePortRequest) (err : Option String)
  | cfgSetValue (sect key value : String)
  | cfgSaveTo (path : String) (httpPort : String) (err : Option String)
  | createFileAndWriteContent (pathElems : List String) (content : String) (err : Option String)
  | loggerError (msg : String)
  | loggerInfo (msg : String)
  | executeScripts (pathElems : List String)
  | sdNotify (res : Bool × Option String)
  | serve (listener : String) (handler : HandlerMultiplexer) (readHeaderTimeoutSeconds : Nat)
      (err : Option String)
  | sendAllHardwareStatusBySocket
  deriving DecidableEq, Repr

/-- How a function ended: it returned, or it panicked with an error. -/
inductive Exit where
  | returned
  | panicked (err : String)
  deriving DecidableEq, Repr

/-- The function `init` of `main.go`. -/
def init (c : Consts) (w : World) : List Event :=
  [Event.flagParse] ++
  if w.versionFlag then
    [Event.fmtPrintln ["v" ++ c.CURRENTVERSION]]
  else
    let dbFlag := if w.dbFlag.length = 0 then w.config.DBPath ++ "/db" else w.dbFlag
    [ Event.builtinPrintln ["git commit:", commit],
      Event.builtinPrintln ["build date:", date],
      Event.configInitSetup w.configFlag,
      Event.loggerLogInit w.config.LogPath w.config.LogSaveName w.config.LogFileExt,
      Event.sqliteGetDb dbFlag,
      Event.serviceNewService w.config.RuntimePath,
      Event.cacheInit,
      Event.getCPUThermalZone,
      Event.routeInitFunction ]

/-- The body of the job given to `cron2.AddFunc`, run with the value of `service.ClientCount`
it reads. -/
def tickJob (clientCount : Int) : List Event :=
  if clientCount > 0 then [Event.sendAllHardwareStatusBySocket] else []

/-- The job run once per tick, `counts` being the value of `service.ClientCount` at each tick. -/
def runTicks : List Int → List Event
  | [] => []
  | n :: rest => tickJob n ++ runTicks rest

/-- The slice `apiPaths` of `main`. -/
def apiPaths (c : Consts) : List String :=
  [ "/v1/sys",
    "/v1/port",
    "/v1/file",
    "/v1/folder",
    "/v1/batch",
    "/v1/image",
    "/v1/samba",
    "/v1/notify",
    "/v1/socketio",
    c.V2APIPath,
    c.V2DocPath ]

/-- The loop `for _, apiPath := range apiPaths` of `main`, from its `i`-th iteration on: the
events, and the error it panics with, if any. -/
def registerRoutes (w : World) (target : String) : Nat → List String → List Event × Option String
  | _, [] => ([], none)
  | i, apiPath :: rest =>
    let r : Route := { Path := apiPath, Target := target }
    match w.createRoute i r with
    | some err => ([Event.createRoute r (some err), Event.fmtPrintln ["err", err]], some err)
    | none =>
      let (evs, res) := registerRoutes w target (i + 1) rest
      (Event.createRoute r none :: evs, res)

/-- The multiplexer `mux` of `main`. -/
def mux : HandlerMultiplexer :=
  { HandlerMap := [("v1", Router.v1Router), ("v2", Router.v2Router), ("doc", Router.v2DocRouter)] }

/-- The mutable configuration the goroutine of `main` works on. -/
structure CfgState where
  /-- The variable `config.ServerInfo.HttpPort`. -/
  ServerInfoHttpPort : String
  /-- The value of key `HttpPort` of section `server` of `config.Cfg`, in memory. -/
  CfgHttpPort : String
  /-- The value of key `HttpPort` of section `server` in the file at
  `config.SystemConfigInfo.ConfigPath`: what the next launch reads. -/
  FileHttpPort : String
  deriving DecidableEq, Repr

/-- The call `config.Cfg.SaveTo(path)`: with no error the file takes the values of `config.Cfg`;
with an error the file is left as it was. -/
def saveTo (saveToErr : Option String) (s : CfgState) : CfgState :=
  match saveToErr with
  | none => { s with FileHttpPort := s.CfgHttpPort }
  | some _ => s

/-- The goroutine `go func() { ... }()` of `main`: `changePortErr` is the error `ChangePort`
returns for a request, `saveToErr` the error `config.Cfg.SaveTo` returns, which the goroutine
discards. -/
def changePortTask (configPath : String) (changePortErr : ChangePortRequest → Option String)
    (saveToErr : Option String) (s : CfgState) : List Event × CfgState :=
  let evs := [Event.sleepSeconds 2]
  if s.ServerInfoHttpPort ≠ "" then
    let changePort : ChangePortRequest := { Port := s.ServerInfoHttpPort }
    let err := changePortErr changePort
    let evs := evs ++ [Event.changePort changePort err]
    if err = none then
      let s1 : CfgState := { s with CfgHttpPort := "" }
      let evs := evs ++ [Event.cfgSetValue "server" "HttpPort" ""]
      let s2 := saveTo saveToErr s1
      (evs ++ [Event.cfgSaveTo configPath s1.CfgHttpPort saveToErr], s2)
    else (evs, s)
  else (evs, s)

/-- The statements of `main` after the route loop, for the listener at `addr`. -/
def mainAfterRoutes (c : Consts) (w : World) (addr : String) : List Event × Exit :=
  let evs := [Event.goChangePortTask]
  let evs := evs ++
    [Event.createFileAndWriteContent [w.config.RuntimePath, "casaos.url"] ("http://" ++ addr)
      w.writeFile]
  let evs := evs ++
    (match w.writeFile with
     | some _ => [Event.loggerError "error when creating address file"]
     | none => [])
  let evs := evs ++ [Event.executeScripts [c.DefaultConfigPath, "start.d"]]
  let evs := evs ++ [Event.sdNotify w.sdNotify]
  let evs := evs ++
    (match w.sdNotify with
     | (_, some _) =>
       [Event.loggerError "Failed to notify systemd that casaos main service is ready"]
     | (true, none) => [Event.loggerInfo "Notified systemd that casaos main service is ready"]
     | (false, none) => [Event.loggerInfo "This process is not running as a systemd service."])
  let evs := evs ++ [Event.loggerInfo "CasaOS main service is listening..."]
  let evs := evs ++ [Event.serve addr mux 5 w.serve]
  match w.serve with
  | some err => (evs, Exit.panicked err)
  | none => (evs, Exit.returned)

/-- The statements of `main` from `net.Listen` on. -/
def mainFromListen (c : Consts) (w : World) : List Event × Exit :=
  let ev := Event.netListen "tcp" (LOCALHOST ++ ":" ++ "0") w.listen
  match w.listen with
  | Except.error err => ([ev], Exit.panicked err)
  | Except.ok addr =>
    match registerRoutes w ("http://" ++ addr) 0 (apiPaths c) with
    | (evs, some err) => (ev :: evs, Exit.panicked err)
    | (evs, none) =>
      let (evs2, ex) := mainAfterRoutes c w addr
      (ev :: evs ++ evs2, ex)

/-- The deferred calls of `main`, in the order they run: `cron2.Stop()`, then
`service.SocketServer.Close()`. -/
def deferred : List Event := [Event.cronStop, Event.socketServerClose]

/-- The statements of `main` before `net.Listen`, when the version flag is not set. -/
def mainBeforeListen (w : World) : List Event :=
  let evs := [Event.initV1Router, Event.initV2Router, Event.initV2DocRouter, Event.cronNew]
  let evs := evs ++ [Event.cronAddFunc "0/5 * * * * *" w.addFunc]
  let evs := evs ++
    (match w.addFunc with
     | some err => [Event.fmtPrintln [err]]
     | none => [])
  evs ++ [Event.cronStart]

/-- The function `main` of `main.go`: its trace and how it ended. -/
def main (c : Consts) (w : World) : List Event × Exit :=
  if w.versionFlag then ([], Exit.returned)
  else
    let (evs, ex) := mainFromListen c w
    (mainBeforeListen w ++ evs ++ deferred, ex)

/-- The run of the program: `init`, then `main`. -/
def program (c : Consts) (w : World) : List Event × Exit :=
  let (evs, ex) := main c w
  (init c w ++ evs, ex)

/-! ## Reading a trace -/

/-- The routes of the `CreateRoute` calls of a trace, in order. -/
def routeCalls : List Event → List Route
  | [] => []
  | Event.createRoute r _ :: rest => r :: routeCalls rest
  | _ :: rest => routeCalls rest

/-- The contents given to `CreateFileAndWriteContent` in a trace, in order. -/
def fileWrites : List Event → List (List String × String)
  | [] => []
  | Event.createFileAndWriteContent p s _ :: rest => (p, s) :: fileWrites rest
  | _ :: rest => fileWrites rest

/-- The requests of the `ChangePort` calls of a trace, in order. -/
def changePortCalls : List Event → List ChangePortRequest
  | [] => []
  | Event.changePort r _ :: rest => r :: changePortCalls rest
  | _ :: rest => changePortCalls rest

/-- Is the event a call of `CreateRoute`? -/
def Event.isCreateRoute : Event → Bool
  | Event.createRoute _ _ => true
  | _ => false

/-- Is the event a call of `net.Listen`? -/
def Event.isNetListen : Event → Bool
  | Event.netListen _ _ _ => true
  | _ => false

/-- Is the event a call of `s.Serve`? -/
def Event.isServe : Event → Bool
  | Event.serve _ _ _ _ => true
  | _ => false

/-- Is the event a call of `CreateFileAndWriteContent`? -/
def Event.isFileWrite : Event → Bool
  | Event.createFileAndWriteContent _ _ _ => true
  | _ => false

/-- Is the event a call of `command.ExecuteScripts`? -/
def Event.isExecuteScripts : Event → Bool
  | Event.executeScripts _ => true
  | _ => false

/-- Is the event a call of `daemon.SdNotify`? -/
def Event.isSdNotify : Event → Bool
  | Event.sdNotify _ => true
  | _ => false

/-- The nine `/v1` paths that open `apiPaths`. -/
def v1Paths : List String :=
  ["/v1/sys", "/v1/port", "/v1/file", "/v1/folder", "/v1/batch", "/v1/image", "/v1/samba",
    "/v1/notify", "/v1/socketio"]

/-- The `CreateRoute` call for `apiPath` with the given `target`, returning no error. -/
def okCall (target : String) (apiPath : String) : Event :=
  Event.createRoute { Path := apiPath, Target := target } none

/-- Every `CreateRoute` call of the loop in `main` returns no error, for the listener at `addr`. -/
def RoutesSucceed (c : Consts) (w : World) (addr : String) : Prop :=
  ∀ j p, (apiPaths c)[j]? = some p →
    w.createRoute j { Path := p, Target := "http://" ++ addr } = none

/-! ## Sample runs -/

/-- Sample values for the constants of other packages. -/
def sampleConsts : Consts :=
  { CURRENTVERSION := "0.4.4"
    V2APIPath := "/v2/casaos"
    V2DocPath := "/doc/v2/casaos"
    DefaultConfigPath := "/etc/casaos" }

/-- Sample values of package `config`. -/
def sampleConfig : Config :=
  { LogPath := "/var/log/casaos"
    LogSaveName := "log"
    LogFileExt := "log"
    DBPath := "/var/lib/casaos"
    RuntimePath := "/var/run/casaos"
    ConfigPath := "/etc/casaos/casaos.conf" }

/-- A world where every call succeeds and the listener is bound at `127.0.0.1:41275`. -/
def calmWorld : World :=
  { versionFlag := false
    configFlag := ""
    dbFlag := ""
    config := sampleConfig
    addFunc := none
    listen := Except.ok "127.0.0.1:41275"
    createRoute := fun _ _ => none
    writeFile := none
    sdNotify := (true, none)
    serve := none }

/-- The world of `calmWorld`, started with `-v`. -/
def versionWorld : World := { calmWorld with versionFlag := true }

/-- A world where `net.Listen` fails. -/
def bindFailsWorld : World := { calmWorld with listen := Except.error "address already in use" }

/-- A world where the fourth call of `CreateRoute` (index 3) fails. -/
def routeFailsWorld : World :=
  { calmWorld with
    createRoute := fun i _ => if i = 3 then some "gateway unreachable" else none }

/-- A world where the address file cannot be written and `SdNotify` errors. -/
def softFailWorld : World :=
  { calmWorld with
    writeFile := some "read-only file system"
    sdNotify := (false, some "notify socket unreachable") }

/-! ## The route loop -/

theorem routeCalls_append (xs ys : List Event) :
    routeCalls (xs ++ ys) = routeCalls xs ++ routeCalls ys := by
  induction xs with
  | nil => rfl
  | cons x xs ih => cases x <;> simp [routeCalls, ih]

theorem routeCalls_map_okCall (t : String) (ps : List String) :
    routeCalls (ps.map (okCall t)) = ps.map (fun p => { Path := p, Target := t }) := by
  induction ps with
  | nil => rfl
  | cons p ps ih => simp [okCall, routeCalls] at ih ⊢; exact ih

theorem fileWrites_append (xs ys : List Event) :
    fileWrites (xs ++ ys) = fileWrites xs ++ fileWrites ys := by
  induction xs with
  | nil => rfl
  | cons x xs ih => cases x <;> simp [fileWrites, ih]

theorem fileWrites_map_okCall (t : String) (ps : List String) :
    fileWrites (ps.map (okCall t)) = [] := by
  induction ps with
  | nil => rfl
  | cons p ps ih => simp [okCall, fileWrites] at ih ⊢; exact ih

/-- When no call fails, the loop calls `CreateRoute` once per path, in order, and ends without
error. -/
theorem registerRoutes_ok (w : World) (t : String) (ps : List String) :
    ∀ i, (∀ j p, ps[j]? = some p → w.createRoute (i + j) { Path := p, Target := t } = none) →
      registerRoutes w t i ps = (ps.map (okCall t), none) := by
  induction ps with
  | nil => intro i _; rfl
  | cons q ps ih =>
    intro i h
    have h0 : w.createRoute i { Path := q, Target := t } = none := by
      simpa using h 0 q (by simp)
    have ht : registerRoutes w t (i + 1) ps = (ps.map (okCall t), none) := by
      apply ih
      intro j p hj
      have := h (j + 1) p (by simpa using hj)
      rw [← this]; congr 1; omega
    simp [registerRoutes, h0, ht, okCall]

/-- When the call for the path of index `k` is the first to fail, the loop makes the calls for
the paths up to it, prints the error and ends with it. -/
theorem registerRoutes_fail (w : World) (t : String) (e : String) (ps : List String) :
    ∀ i k p, ps[k]? = some p →
      (∀ j q, j < k → ps[j]? = some q → w.createRoute (i + j) { Path := q, Target := t } = none) →
      w.createRoute (i + k) { Path := p, Target := t } = some e →
      registerRoutes w t i ps =
        ((ps.take k).map (okCall t) ++
          [Event.createRoute { Path := p, Target := t } (some e), Event.fmtPrintln ["err", e]],
         some e) := by
  induction ps with
  | nil => intro i k p hk; simp at hk
  | cons q ps ih =>
    intro i k p hk hlt hf
    cases k with
    | zero =>
      simp at hk
      subst hk
      simp at hf
      simp [registerRoutes, hf]
    | succ k =>
      have h0 : w.createRoute i { Path := q, Target := t } = none := by
        simpa using hlt 0 q (by omega) (by simp)
      have ht := ih (i + 1) k p (by simpa using hk)
        (by
          intro j r hj hr
          have := hlt (j + 1) r (by omega) (by simpa using hr)
          rw [← this]; congr 1; omega)
        (by rw [← hf]; congr 1; omega)
      simp [registerRoutes, h0, ht, okCall]

/-- The loop ends with an error as soon as one of its calls returned one. -/
theorem registerRoutes_err (w : World) (t : String) (ps : List String) :
    ∀ i r e, Event.createRoute r (some e) ∈ (registerRoutes w t i ps).1 →
      ∃ e1, (registerRoutes w t i ps).2 = some e1 := by
  induction ps with
  | nil => intro i r e h; simp [registerRoutes] at h
  | cons q ps ih =>
    intro i r e h
    simp only [registerRoutes] at h ⊢
    cases hq : w.createRoute i { Path := q, Target := t } with
    | some e1 => exact ⟨e1, by simp⟩
    | none =>
      simp only [hq] at h ⊢
      simp at h
      exact ih (i + 1) r e h

/-- The loop makes no other calls than `CreateRoute` and `fmt.Println`. -/
theorem registerRoutes_events (w : World) (t : String) (ps : List String) :
    ∀ i ev, ev ∈ (registerRoutes w t i ps).1 →
      (∃ r err, ev = Event.createRoute r err) ∨ (∃ args, ev = Event.fmtPrintln args) := by
  induction ps with
  | nil => intro i ev h; simp [registerRoutes] at h
  | cons q ps ih =>
    intro i ev h
    simp only [registerRoutes] at h
    cases hq : w.createRoute i { Path := q, Target := t } with
    | some e1 =>
      simp only [hq] at h
      simp at h
      rcases h with h | h
      · exact Or.inl ⟨_, _, h⟩
      · exact Or.inr ⟨_, h⟩
    | none =>
      simp only [hq] at h
      simp at h
      rcases h with h | h
      · exact Or.inl ⟨_, _, h⟩
      · exact ih (i + 1) ev h

/-- The trace of `main` when the bind and every `CreateRoute` call succeed. -/
theorem main_trace_ok (c : Consts) (w : World) (addr : String)
    (hv : w.versionFlag = false) (hl : w.listen = Except.ok addr) (hr : RoutesSucceed c w addr) :
    main c w =
      (mainBeforeListen w ++
        ([Event.netListen "tcp" (LOCALHOST ++ ":" ++ "0") (Except.ok addr)] ++
          (apiPaths c).map (okCall ("http://" ++ addr)) ++
          (mainAfterRoutes c w addr).1) ++ deferred,
       (mainAfterRoutes c w addr).2) := by
  have h := registerRoutes_ok w ("http://" ++ addr) (apiPaths c) 0
    (by intro j p hj; simpa using hr j p hj)
  simp [main, mainFromListen, hv, hl, h]

/-- The trace of `main` when the call of `CreateRoute` for the path of index `k` is the first to
return an error. -/
theorem main_trace_fail (c : Consts) (w : World) (addr e p : String) (k : Nat)
    (hv : w.versionFlag = false) (hl : w.listen = Except.ok addr)
    (hk : (apiPaths c)[k]? = some p)
    (hlt : ∀ j q, j < k → (apiPaths c)[j]? = some q →
      w.createRoute j { Path := q, Target := "http://" ++ addr } = none)
    (hf : w.createRoute k { Path := p, Target := "http://" ++ addr } = some e) :
    main c w =
      (mainBeforeListen w ++
        ([Event.netListen "tcp" (LOCALHOST ++ ":" ++ "0") (Except.ok addr)] ++
          ((apiPaths c).take k).map (okCall ("http://" ++ addr)) ++
          [Event.createRoute { Path := p, Target := "http://" ++ addr } (some e),
            Event.fmtPrintln ["err", e]]) ++ deferred,
       Exit.panicked e) := by
  have h := registerRoutes_fail w ("http://" ++ addr) e (apiPaths c) 0 k p hk
    (by intro j q hj hq; simpa using hlt j q hj hq) (by simpa using hf)
  simp [main, mainFromListen, hv, hl, h]

theorem routeCalls_mainBeforeListen (w : World) : routeCalls (mainBeforeListen w) = [] := by
  cases h : w.addFunc <;> simp [mainBeforeListen, routeCalls, h]

theorem routeCalls_mainAfterRoutes (c : Consts) (w : World) (addr : String) :
    routeCalls (mainAfterRoutes c w addr).1 = [] := by
  cases hw : w.writeFile <;> rcases hs : w.sdNotify with ⟨_ | _, _ | _⟩ <;>
    cases hse : w.serve <;> simp [routeCalls, mainAfterRoutes, hw, hs, hse]

theorem fileWrites_mainBeforeListen (w : World) : fileWrites (mainBeforeListen w) = [] := by
  cases h : w.addFunc <;> simp [mainBeforeListen, fileWrites, h]

theorem fileWrites_mainAfterRoutes (c : Consts) (w : World) (addr : String) :
    fileWrites (mainAfterRoutes c w addr).1 =
      [([w.config.RuntimePath, "casaos.url"], "http://" ++ addr)] := by
  cases hw : w.writeFile <;> rcases hs : w.sdNotify with ⟨_ | _, _ | _⟩ <;>
    cases hse : w.serve <;> simp [fileWrites, mainAfterRoutes, hw, hs, hse]

/-- The `CreateRoute` calls of `main` when the bind and every `CreateRoute` call succeed. -/
theorem routeCalls_main_ok (c : Consts) (w : World) (addr : String)
    (hv : w.versionFlag = false) (hl : w.listen = Except.ok addr) (hr : RoutesSucceed c w addr) :
    routeCalls (main c w).1 =
      (apiPaths c).map (fun p => { Path := p, Target := "http://" ++ addr }) := by
  have h1 : ∀ res, routeCalls [Event.netListen "tcp" (LOCALHOST ++ ":" ++ "0") res] = [] :=
    fun _ => rfl
  have h2 : routeCalls deferred = [] := rfl
  rw [main_trace_ok c w addr hv hl hr]
  simp only [routeCalls_append, routeCalls_map_okCall, routeCalls_mainBeforeListen,
    routeCalls_mainAfterRoutes, h1, h2, List.nil_append, List.append_nil]

/-- The statements after the route loop end with the call of `s.Serve`, which is their only
one, and they panic only with the error `s.Serve` returned. -/
theorem mainAfterRoutes_serve (c : Consts) (w : World) (addr : String) :
    ∃ pre, (mainAfterRoutes c w addr).1 = pre ++ [Event.serve addr mux 5 w.serve] ∧
      (∀ ev ∈ pre, ev.isServe = false) ∧
      Event.createFileAndWriteContent [w.config.RuntimePath, "casaos.url"] ("http://" ++ addr)
        w.writeFile ∈ pre ∧
      Event.sdNotify w.sdNotify ∈ pre ∧
      (mainAfterRoutes c w addr).2 =
        (match w.serve with
         | some err => Exit.panicked err
         | none => Exit.returned) := by
  refine ⟨(mainAfterRoutes c w addr).1.dropLast, ?_, ?_, ?_, ?_, ?_⟩ <;>
    cases hse : w.serve <;> cases hw : w.writeFile <;>
    rcases hs : w.sdNotify with ⟨_ | _, _ | _⟩ <;>
    simp [mainAfterRoutes, hw, hs, hse, Event.isServe]

/-- The statements after the route loop do not start the scheduler. -/
theorem cronStart_not_mem_mainAfterRoutes (c : Consts) (w : World) (addr : String) :
    Event.cronStart ∉ (mainAfterRoutes c w addr).1 := by
  cases hw : w.writeFile <;> rcases hs : w.sdNotify with ⟨_ | _, _ | _⟩ <;>
    cases hse : w.serve <;> simp [mainAfterRoutes, hw, hs, hse]

/-- The statements after the route loop call `CreateRoute` no more. -/
theorem createRoute_not_mem_mainAfterRoutes (c : Consts) (w : World) (addr : String) (r : Route)
    (err : Option String) : Event.createRoute r err ∉ (mainAfterRoutes c w addr).1 := by
  cases hw : w.writeFile <;> rcases hs : w.sdNotify with ⟨_ | _, _ | _⟩ <;>
    cases hse : w.serve <;> simp [mainAfterRoutes, hw, hs, hse]

/-- The statements before `net.Listen` neither bind nor register nor start serving. -/
theorem mem_mainBeforeListen (w : World) :
    ∀ ev ∈ mainBeforeListen w,
      ev.isNetListen = false ∧ ev.isCreateRoute = false ∧ ev.isServe = false ∧
        ev.isFileWrite = false ∧ ev.isExecuteScripts = false ∧ ev.isSdNotify = false ∧
        ev ≠ Event.goChangePortTask := by
  cases ha : w.addFunc <;>
    simp [mainBeforeListen, ha, Event.isNetListen, Event.isCreateRoute, Event.isServe,
      Event.isFileWrite, Event.isExecuteScripts, Event.isSdNotify]

/-- The route loop neither starts the scheduler nor starts serving. -/
theorem mem_registerRoutes (w : World) (t : String) (ps : List String) (i : Nat) (ev : Event)
    (h : ev ∈ (registerRoutes w t i ps).1) :
    ev ≠ Event.cronStart ∧ ev.isServe = false ∧ ev.isFileWrite = false ∧
      ev.isExecuteScripts = false ∧ ev.isSdNotify = false ∧ ev ≠ Event.goChangePortTask := by
  rcases registerRoutes_events w t ps i ev h with ⟨r, err, rfl⟩ | ⟨args, rfl⟩ <;>
    simp [Event.isServe, Event.isFileWrite, Event.isExecuteScripts, Event.isSdNotify]

/-- From `net.Listen` on, `main` does not start the scheduler. -/
theorem cronStart_not_mem_mainFromListen (c : Consts) (w : World) :
    Event.cronStart ∉ (mainFromListen c w).1 := by
  cases hl : w.listen with
  | error err => simp [mainFromListen, hl]
  | ok addr =>
    rcases hreg : registerRoutes w ("http://" ++ addr) 0 (apiPaths c) with ⟨evs, res⟩
    have hev : Event.cronStart ∉ evs := by
      intro hm
      have := mem_registerRoutes w ("http://" ++ addr) (apiPaths c) 0 Event.cronStart
        (by rw [hreg]; exact hm)
      exact this.1 rfl
    cases res with
    | some e => simp [mainFromListen, hl, hreg, hev]
    | none => simp [mainFromListen, hl, hreg, hev, cronStart_not_mem_mainAfterRoutes]

/-! ## The claims -/

/-- C1: in a run of `main` where the bind succeeds and every `CreateRoute` call succeeds, the
`CreateRoute` calls are exactly one per element of `apiPaths` (the nine `/v1` paths, then
`route.V2APIPath` and `route.V2DocPath`, eleven in all), in list order, each with target
`"http://" + listener.Addr().String()`; their paths are pairwise distinct, given that the two
constants of package `route` differ from each other and from the nine `/v1` paths. -/
theorem createRoute_calls_on_success (c : Consts) (w : World) (addr : String)
    (hv : w.versionFlag = false) (hl : w.listen = Except.ok addr) (hr : RoutesSucceed c w addr)
    (hne : c.V2APIPath ≠ c.V2DocPath) (hapi : c.V2APIPath ∉ v1Paths)
    (hdoc : c.V2DocPath ∉ v1Paths) :
    routeCalls (main c w).1 =
        (apiPaths c).map (fun p => { Path := p, Target := "http://" ++ addr }) ∧
      apiPaths c = v1Paths ++ [c.V2APIPath, c.V2DocPath] ∧
      (routeCalls (main c w).1).length = 11 ∧
      ((routeCalls (main c w).1).map Route.Path).Nodup ∧
      ∀ r ∈ routeCalls (main c w).1, r.Target = "http://" ++ addr := by
  have hcalls := routeCalls_main_ok c w addr hv hl hr
  refine ⟨hcalls, rfl, ?_, ?_, ?_⟩
  · rw [hcalls]; simp [apiPaths]
  · rw [hcalls]
    have hp : (List.map Route.Path
        (List.map (fun p => ({ Path := p, Target := "http://" ++ addr } : Route)) (apiPaths c)))
        = apiPaths c := by
      rw [List.map_map]; simp [Function.comp_def]
    rw [hp]
    have : apiPaths c = v1Paths ++ [c.V2APIPath, c.V2DocPath] := rfl
    rw [this, List.nodup_append]
    refine ⟨by decide, by simpa using hne, ?_⟩
    intro a ha hb
    simp at hb
    rcases hb with hb | hb
    · exact hapi (hb ▸ ha)
    · exact hdoc (hb ▸ ha)
  · rw [hcalls]
    intro r hrm
    simp at hrm
    rcases hrm with ⟨p, _, rfl⟩
    rfl

/-- C10: route registration goes in list order and stops at the first failure: when
`CreateRoute` returns no error for the first `k` paths of `apiPaths` and an error for the path
of index `k`, exactly `k + 1` calls are made, for the first `k + 1` paths in list order, and
`main` panics with that error (no call is made for a later path). -/
theorem registration_stops_at_first_failure (c : Consts) (w : World) (addr e p : String)
    (k : Nat) (hv : w.versionFlag = false) (hl : w.listen = Except.ok addr)
    (hk : (apiPaths c)[k]? = some p)
    (hlt : ∀ j q, j < k → (apiPaths c)[j]? = some q →
      w.createRoute j { Path := q, Target := "http://" ++ addr } = none)
    (hf : w.createRoute k { Path := p, Target := "http://" ++ addr } = some e) :
    routeCalls (main c w).1 =
        ((apiPaths c).take (k + 1)).map (fun q => { Path := q, Target := "http://" ++ addr }) ∧
      (routeCalls (main c w).1).length = k + 1 ∧
      (main c w).2 = Exit.panicked e := by
  have h1 : ∀ res, routeCalls [Event.netListen "tcp" (LOCALHOST ++ ":" ++ "0") res] = [] :=
    fun _ => rfl
  have h2 : routeCalls deferred = [] := rfl
  have h3 : routeCalls [Event.createRoute { Path := p, Target := "http://" ++ addr } (some e),
      Event.fmtPrintln ["err", e]] = [{ Path := p, Target := "http://" ++ addr }] := rfl
  have hcalls : routeCalls (main c w).1 =
      ((apiPaths c).take (k + 1)).map (fun q => { Path := q, Target := "http://" ++ addr }) := by
    rw [main_trace_fail c w addr e p k hv hl hk hlt hf]
    simp only [routeCalls_append, routeCalls_map_okCall, routeCalls_mainBeforeListen, h1, h2, h3,
      List.nil_append, List.append_nil]
    rw [List.take_succ, hk]
    simp
  have hklt : k < (apiPaths c).length := by
    rcases (List.getElem?_eq_some_iff.mp hk) with ⟨h, _⟩
    exact h
  refine ⟨hcalls, ?_, ?_⟩
  · rw [hcalls, List.length_map, List.length_take]
    omega
  · rw [main_trace_fail c w addr e p k hv hl hk hlt hf]

/-- C8: in a run of `main` where the bind and every route registration succeed, the one call of
`CreateFileAndWriteContent` writes, to `casaos.url` under the runtime path, exactly
`"http://" + listener.Addr().String()`, and that string is the target of every registered
route. -/
theorem address_file_content (c : Consts) (w : World) (addr : String)
    (hv : w.versionFlag = false) (hl : w.listen = Except.ok addr) (hr : RoutesSucceed c w addr) :
    fileWrites (main c w).1 = [([w.config.RuntimePath, "casaos.url"], "http://" ++ addr)] ∧
      (routeCalls (main c w).1).length = 11 ∧
      ∀ r ∈ routeCalls (main c w).1, ∀ f ∈ fileWrites (main c w).1, r.Target = f.2 := by
  have h1 : ∀ res, fileWrites [Event.netListen "tcp" (LOCALHOST ++ ":" ++ "0") res] = [] :=
    fun _ => rfl
  have h2 : fileWrites deferred = [] := rfl
  have hw : fileWrites (main c w).1 =
      [([w.config.RuntimePath, "casaos.url"], "http://" ++ addr)] := by
    rw [main_trace_ok c w addr hv hl hr]
    simp only [fileWrites_append, fileWrites_map_okCall, fileWrites_mainBeforeListen,
      fileWrites_mainAfterRoutes, h1, h2, List.nil_append, List.append_nil]
  have hcalls := routeCalls_main_ok c w addr hv hl hr
  refine ⟨hw, ?_, ?_⟩
  · rw [hcalls]; simp [apiPaths]
  · rw [hcalls, hw]
    intro r hrm f hf
    simp at hrm hf
    rcases hrm with ⟨q, _, rfl⟩
    rw [hf]

/-- C7: with the version flag set, `init` only parses the flags and prints `"v"` followed by
`types.CURRENTVERSION` (no configuration, logging, database or service initialisation), and
`main` returns at once, making no call at all (no bind, no scheduler start, no `CreateRoute`,
no file write) and without panicking. -/
theorem version_flag_prints_and_returns (c : Consts) (w : World) (hv : w.versionFlag = true) :
    init c w = [Event.flagParse, Event.fmtPrintln ["v" ++ c.CURRENTVERSION]] ∧
      main c w = ([], Exit.returned) ∧
      program c w =
        ([Event.flagParse, Event.fmtPrintln ["v" ++ c.CURRENTVERSION]], Exit.returned) := by
  simp [init, main, program, hv]

/-- C4: the tick job triggers exactly one `SendAllHardwareStatusBySocket` when
`service.ClientCount` is positive (the same single event for 1 and for 50) and none when it is
zero; over any sequence of ticks the number of broadcasts is the number of ticks at which the
count was positive, and it is zero over any run of zero-count ticks. -/
theorem tick_broadcasts :
    (∀ n : Int, 0 < n → tickJob n = [Event.sendAllHardwareStatusBySocket]) ∧
      tickJob 1 = tickJob 50 ∧
      tickJob 0 = [] ∧
      (∀ counts : List Int,
        runTicks counts =
          List.replicate (counts.countP (fun n => decide (0 < n)))
            Event.sendAllHardwareStatusBySocket) ∧
      (∀ k : Nat, runTicks (List.replicate k 0) = []) := by
  refine ⟨?_, rfl, rfl, ?_, ?_⟩
  · intro n hn
    simp [tickJob, hn]
  · intro counts
    induction counts with
    | nil => rfl
    | cons n rest ih =>
      by_cases hn : 0 < n
      · simp [runTicks, tickJob, hn, ih, List.countP_cons, List.replicate_succ]
      · simp [runTicks, tickJob, hn, ih, List.countP_cons]
  · intro k
    induction k with
    | zero => rfl
    | succ k ih => simp [List.replicate_succ, runTicks, tickJob, ih]

/-- The goroutine with a non-empty `config.ServerInfo.HttpPort`: if `ChangePort` and `SaveTo`
both return no error, the key is set to the empty string and the file takes that value; if
`ChangePort` returns no error and `SaveTo` returns one, the key is set in memory, the error is
dropped and the file keeps its value; if `ChangePort` returns an error, nothing is set or
saved. -/
theorem changePortTask_with_override (configPath : String)
    (changePortErr : ChangePortRequest → Option String) (saveToErr : Option String)
    (s : CfgState) (hp : s.ServerInfoHttpPort ≠ "") :
    (changePortErr { Port := s.ServerInfoHttpPort } = none → saveToErr = none →
        changePortTask configPath changePortErr saveToErr s =
          ([Event.sleepSeconds 2, Event.changePort { Port := s.ServerInfoHttpPort } none,
              Event.cfgSetValue "server" "HttpPort" "", Event.cfgSaveTo configPath "" none],
            { s with CfgHttpPort := "", FileHttpPort := "" })) ∧
      (∀ serr, changePortErr { Port := s.ServerInfoHttpPort } = none → saveToErr = some serr →
        changePortTask configPath changePortErr saveToErr s =
          ([Event.sleepSeconds 2, Event.changePort { Port := s.ServerInfoHttpPort } none,
              Event.cfgSetValue "server" "HttpPort" "",
              Event.cfgSaveTo configPath "" (some serr)],
            { s with CfgHttpPort := "" })) ∧
      (∀ err, changePortErr { Port := s.ServerInfoHttpPort } = some err →
        changePortTask configPath changePortErr saveToErr s =
          ([Event.sleepSeconds 2, Event.changePort { Port := s.ServerInfoHttpPort } (some err)],
            s)) := by
  refine ⟨?_, ?_, ?_⟩
  · intro h hs
    simp [changePortTask, saveTo, hp, h, hs]
  · intro serr h hs
    simp [changePortTask, saveTo, hp, h, hs]
  · intro err h
    simp [changePortTask, hp, h]

/-- C5: the code at the failing input. With the override `8080` configured and persisted,
`ChangePort` returning no error and `config.Cfg.SaveTo` returning an error, the goroutine sets
the key in memory, calls `SaveTo`, drops its error and ends: the persisted configuration still
holds the override `8080`, which the claim says is cleared after a successful `ChangePort`. -/
theorem changePort_save_failure_keeps_override :
    changePortTask "/etc/casaos/casaos.conf" (fun _ => none) (some "permission denied")
        { ServerInfoHttpPort := "8080", CfgHttpPort := "8080", FileHttpPort := "8080" } =
      ([Event.sleepSeconds 2, Event.changePort { Port := "8080" } none,
          Event.cfgSetValue "server" "HttpPort" "",
          Event.cfgSaveTo "/etc/casaos/casaos.conf" "" (some "permission denied")],
        { ServerInfoHttpPort := "8080", CfgHttpPort := "", FileHttpPort := "8080" }) ∧
      (changePortTask "/etc/casaos/casaos.conf" (fun _ => none) (some "permission denied")
        { ServerInfoHttpPort := "8080", CfgHttpPort := "8080",
          FileHttpPort := "8080" }).2.FileHttpPort ≠ "" := by
  refine ⟨by decide, by decide⟩

/-- C6: the goroutine calls `ChangePort` exactly once, with `Port` equal to
`config.ServerInfo.HttpPort`, when that value is non-empty; when it is empty the goroutine only
sleeps: no `ChangePort` call, and the configuration is unchanged and not saved. -/
theorem changePort_only_with_override (configPath : String)
    (changePortErr : ChangePortRequest → Option String) (saveToErr : Option String)
    (s : CfgState) :
    (s.ServerInfoHttpPort ≠ "" →
        changePortCalls (changePortTask configPath changePortErr saveToErr s).1 =
          [{ Port := s.ServerInfoHttpPort }]) ∧
      (s.ServerInfoHttpPort = "" →
        changePortTask configPath changePortErr saveToErr s = ([Event.sleepSeconds 2], s)) := by
  constructor
  · intro hp
    cases h : changePortErr { Port := s.ServerInfoHttpPort } <;>
      simp [changePortTask, hp, h, changePortCalls]
  · intro hp
    simp [changePortTask, hp]

/-- C9: non-fatal outcomes do not stop startup: when the bind and every `CreateRoute` call
succeed, then whatever `CreateFileAndWriteContent` and `SdNotify` return, `main` goes on to
call `s.Serve` on the bound listener with `mux` as handler, has made no `Serve` call before,
and panics only if `Serve` itself returns an error. -/
theorem nonfatal_outcomes_reach_serve (c : Consts) (w : World) (addr : String)
    (hv : w.versionFlag = false) (hl : w.listen = Except.ok addr) (hr : RoutesSucceed c w addr) :
    ∃ pre, (main c w).1 = pre ++ [Event.serve addr mux 5 w.serve] ++ deferred ∧
      (∀ ev ∈ pre, ev.isServe = false) ∧
      Event.createFileAndWriteContent [w.config.RuntimePath, "casaos.url"] ("http://" ++ addr)
        w.writeFile ∈ pre ∧
      Event.sdNotify w.sdNotify ∈ pre ∧
      (main c w).2 =
        (match w.serve with
         | some err => Exit.panicked err
         | none => Exit.returned) := by
  rcases mainAfterRoutes_serve c w addr with ⟨pre, hpre, hns, hwf, hsd, hex⟩
  refine ⟨mainBeforeListen w ++
    ([Event.netListen "tcp" (LOCALHOST ++ ":" ++ "0") (Except.ok addr)] ++
      (apiPaths c).map (okCall ("http://" ++ addr)) ++ pre), ?_, ?_, ?_, ?_, ?_⟩
  · rw [main_trace_ok c w addr hv hl hr, hpre]
    simp only [List.append_assoc]
  · intro ev hev
    simp only [List.mem_append, List.mem_singleton, List.mem_map] at hev
    rcases hev with hev | (hev | ⟨p, _, hev⟩) | hev
    · exact (mem_mainBeforeListen w ev hev).2.2.1
    · rw [hev]; rfl
    · rw [← hev]; rfl
    · exact hns ev hev
  · simp only [List.mem_append]
    exact Or.inr (Or.inr hwf)
  · simp only [List.mem_append]
    exact Or.inr (Or.inr hsd)
  · rw [main_trace_ok c w addr hv hl hr, hex]

/-- C2: in a run of `main` where some `CreateRoute` call returns an error, `main` panics, and
its trace has no call of `s.Serve`, of `CreateFileAndWriteContent`, of `ExecuteScripts` or of
`SdNotify`, and does not start the goroutine that calls `ChangePort`. -/
theorem createRoute_failure_aborts (c : Consts) (w : World)
    (h : ∃ r e, Event.createRoute r (some e) ∈ (main c w).1) :
    (∃ e, (main c w).2 = Exit.panicked e) ∧
      ∀ ev ∈ (main c w).1,
        ev.isServe = false ∧ ev.isFileWrite = false ∧ ev.isExecuteScripts = false ∧
          ev.isSdNotify = false ∧ ev ≠ Event.goChangePortTask := by
  rcases h with ⟨r, e, h⟩
  have hb : Event.createRoute r (some e) ∉ mainBeforeListen w := by
    intro hm
    have := (mem_mainBeforeListen w _ hm).2.1
    simp [Event.isCreateRoute] at this
  have hd : Event.createRoute r (some e) ∉ deferred := by simp [deferred]
  cases hv : w.versionFlag with
  | true => simp [main, hv] at h
  | false =>
    cases hl : w.listen with
    | error err =>
      exfalso
      have hm : (main c w).1 = mainBeforeListen w ++
          [Event.netListen "tcp" (LOCALHOST ++ ":" ++ "0") (Except.error err)] ++ deferred := by
        simp [main, mainFromListen, hv, hl]
      rw [hm] at h
      simp only [List.mem_append, List.mem_singleton] at h
      rcases h with (h | h) | h
      · exact hb h
      · cases h
      · exact hd h
    | ok addr =>
      rcases hreg : registerRoutes w ("http://" ++ addr) 0 (apiPaths c) with ⟨evs, res⟩
      cases res with
      | none =>
        exfalso
        have hm : (main c w).1 = mainBeforeListen w ++
            ([Event.netListen "tcp" (LOCALHOST ++ ":" ++ "0") (Except.ok addr)] ++ evs ++
              (mainAfterRoutes c w addr).1) ++ deferred := by
          simp [main, mainFromListen, hv, hl, hreg]
        rw [hm] at h
        simp only [List.mem_append, List.mem_singleton] at h
        rcases h with (h | (h | h) | h) | h
        · exact hb h
        · cases h
        · have := registerRoutes_err w ("http://" ++ addr) (apiPaths c) 0 r e
            (by rw [hreg]; exact h)
          rw [hreg] at this
          rcases this with ⟨e1, he1⟩
          cases he1
        · exact createRoute_not_mem_mainAfterRoutes c w addr r (some e) h
        · exact hd h
      | some e1 =>
        have hm : main c w = (mainBeforeListen w ++
            ([Event.netListen "tcp" (LOCALHOST ++ ":" ++ "0") (Except.ok addr)] ++ evs) ++
              deferred, Exit.panicked e1) := by
          simp [main, mainFromListen, hv, hl, hreg]
        rw [hm]
        refine ⟨⟨e1, rfl⟩, ?_⟩
        intro ev hev
        simp only [List.mem_append, List.mem_singleton] at hev
        rcases hev with (hev | hev | hev) | hev
        · have := mem_mainBeforeListen w ev hev
          exact ⟨this.2.2.1, this.2.2.2.1, this.2.2.2.2.1, this.2.2.2.2.2.1, this.2.2.2.2.2.2⟩
        · subst hev
          simp [Event.isServe, Event.isFileWrite, Event.isExecuteScripts, Event.isSdNotify]
        · exact (mem_registerRoutes w ("http://" ++ addr) (apiPaths c) 0 ev
            (by rw [hreg]; exact hev)).2
        · simp only [deferred, List.mem_cons, List.mem_singleton, List.not_mem_nil, or_false]
            at hev
          rcases hev with hev | hev <;> subst hev <;>
            simp [Event.isServe, Event.isFileWrite, Event.isExecuteScripts, Event.isSdNotify]

/-- C3 (as the code has it): in every run of `main` without the version flag the scheduler is
started exactly once, before `net.Listen` and before every `CreateRoute` call, whatever these
return; it is therefore also started in a run where the bind or a `CreateRoute` call fails. -/
theorem scheduler_started_before_bind (c : Consts) (w : World) (hv : w.versionFlag = false) :
    ∃ pre post, (main c w).1 = pre ++ [Event.cronStart] ++ post ∧
      (∀ ev ∈ pre, ev.isNetListen = false ∧ ev.isCreateRoute = false ∧ ev ≠ Event.cronStart) ∧
      Event.cronStart ∉ post ∧
      Event.netListen "tcp" (LOCALHOST ++ ":" ++ "0") w.listen ∈ post := by
  refine ⟨(mainBeforeListen w).dropLast, (mainFromListen c w).1 ++ deferred, ?_, ?_, ?_, ?_⟩
  · have hb : mainBeforeListen w = (mainBeforeListen w).dropLast ++ [Event.cronStart] := by
      cases ha : w.addFunc <;> simp [mainBeforeListen, ha]
    have hm : (main c w).1 = mainBeforeListen w ++ (mainFromListen c w).1 ++ deferred := by
      simp [main, hv]
    rw [hm]
    conv_lhs => rw [hb]
    simp only [List.append_assoc]
  · cases ha : w.addFunc <;>
      simp [mainBeforeListen, ha, Event.isNetListen, Event.isCreateRoute]
  · intro hm
    simp only [List.mem_append] at hm
    rcases hm with hm | hm
    · exact cronStart_not_mem_mainFromListen c w hm
    · simp [deferred] at hm
  · simp only [List.mem_append]
    refine Or.inl ?_
    cases hl : w.listen with
    | error err => simp [mainFromListen, hl]
    | ok addr =>
      rcases hreg : registerRoutes w ("http://" ++ addr) 0 (apiPaths c) with ⟨evs, res⟩
      cases res <;> simp [mainFromListen, hl, hreg]

/-! ## The claims at sample runs -/

/-- Witness of C1: the eleven `CreateRoute` calls of the run in `calmWorld`. -/
theorem createRoute_calls_on_success_witness :
    calmWorld.versionFlag = false ∧ calmWorld.listen = Except.ok "127.0.0.1:41275" ∧
      RoutesSucceed sampleConsts calmWorld "127.0.0.1:41275" ∧
      routeCalls (main sampleConsts calmWorld).1 =
        [ { Path := "/v1/sys", Target := "http://127.0.0.1:41275" },
          { Path := "/v1/port", Target := "http://127.0.0.1:41275" },
          { Path := "/v1/file", Target := "http://127.0.0.1:41275" },
          { Path := "/v1/folder", Target := "http://127.0.0.1:41275" },
          { Path := "/v1/batch", Target := "http://127.0.0.1:41275" },
          { Path := "/v1/image", Target := "http://127.0.0.1:41275" },
          { Path := "/v1/samba", Target := "http://127.0.0.1:41275" },
          { Path := "/v1/notify", Target := "http://127.0.0.1:41275" },
          { Path := "/v1/socketio", Target := "http://127.0.0.1:41275" },
          { Path := "/v2/casaos", Target := "http://127.0.0.1:41275" },
          { Path := "/doc/v2/casaos", Target := "http://127.0.0.1:41275" } ] ∧
      ((routeCalls (main sampleConsts calmWorld).1).map Route.Path).Nodup :=
  have h := createRoute_calls_on_success sampleConsts calmWorld "127.0.0.1:41275" rfl rfl
    (fun _ _ _ => rfl) (by decide) (by decide) (by decide)
  ⟨rfl, rfl, fun _ _ _ => rfl, h.1, h.2.2.2.1⟩

/-- Witness of C2: the run in `routeFailsWorld` panics without serving. -/
theorem createRoute_failure_aborts_witness :
    Event.createRoute { Path := "/v1/folder", Target := "http://127.0.0.1:41275" }
        (some "gateway unreachable") ∈ (main sampleConsts routeFailsWorld).1 ∧
      (∃ e, (main sampleConsts routeFailsWorld).2 = Exit.panicked e) ∧
      ∀ ev ∈ (main sampleConsts routeFailsWorld).1,
        ev.isServe = false ∧ ev.isFileWrite = false ∧ ev.isExecuteScripts = false ∧
          ev.isSdNotify = false ∧ ev ≠ Event.goChangePortTask :=
  have hm : Event.createRoute { Path := "/v1/folder", Target := "http://127.0.0.1:41275" }
      (some "gateway unreachable") ∈ (main sampleConsts routeFailsWorld).1 := by decide
  ⟨hm, createRoute_failure_aborts sampleConsts routeFailsWorld ⟨_, _, hm⟩⟩

/-- Counterexample to C3 as stated: in the run in `bindFailsWorld` the bind fails, no route is
registered, and yet the scheduler has been started, before the call of `net.Listen`. -/
theorem scheduler_started_though_bind_fails :
    bindFailsWorld.listen = Except.error "address already in use" ∧
      main sampleConsts bindFailsWorld =
        ([Event.initV1Router, Event.initV2Router, Event.initV2DocRouter, Event.cronNew,
            Event.cronAddFunc "0/5 * * * * *" none, Event.cronStart,
            Event.netListen "tcp" "127.0.0.1:0" (Except.error "address already in use"),
            Event.cronStop, Event.socketServerClose],
          Exit.panicked "address already in use") ∧
      Event.cronStart ∈ (main sampleConsts bindFailsWorld).1 ∧
      routeCalls (main sampleConsts bindFailsWorld).1 = [] := by
  refine ⟨rfl, by decide, by decide, by decide⟩

/-- Witness of C3 (as the code has it), at the run in `bindFailsWorld`. -/
theorem scheduler_started_before_bind_witness :
    bindFailsWorld.versionFlag = false ∧
      ∃ pre post, (main sampleConsts bindFailsWorld).1 = pre ++ [Event.cronStart] ++ post ∧
        (∀ ev ∈ pre,
          ev.isNetListen = false ∧ ev.isCreateRoute = false ∧ ev ≠ Event.cronStart) ∧
        Event.cronStart ∉ post ∧
        Event.netListen "tcp" (LOCALHOST ++ ":" ++ "0") bindFailsWorld.listen ∈ post :=
  ⟨rfl, scheduler_started_before_bind sampleConsts bindFailsWorld rfl⟩

/-- The goroutine with an override `8080`, when `ChangePort` and `SaveTo` both succeed: the
persisted configuration is cleared. -/
theorem changePortTask_with_override_sample :
    changePortTask "/etc/casaos/casaos.conf" (fun _ => none) none
        { ServerInfoHttpPort := "8080", CfgHttpPort := "8080", FileHttpPort := "8080" } =
      ([Event.sleepSeconds 2, Event.changePort { Port := "8080" } none,
          Event.cfgSetValue "server" "HttpPort" "",
          Event.cfgSaveTo "/etc/casaos/casaos.conf" "" none],
        { ServerInfoHttpPort := "8080", CfgHttpPort := "", FileHttpPort := "" }) :=
  (changePortTask_with_override "/etc/casaos/casaos.conf" (fun _ => none) none
    { ServerInfoHttpPort := "8080", CfgHttpPort := "8080", FileHttpPort := "8080" }
    (by decide)).1 rfl rfl

/-- Witness of C7: the run in `versionWorld`. -/
theorem version_flag_prints_and_returns_witness :
    versionWorld.versionFlag = true ∧
      program sampleConsts versionWorld =
        ([Event.flagParse, Event.fmtPrintln ["v0.4.4"]], Exit.returned) :=
  ⟨rfl, (version_flag_prints_and_returns sampleConsts versionWorld rfl).2.2⟩

/-- Witness of C8: the address file of the run in `calmWorld`. -/
theorem address_file_content_witness :
    calmWorld.versionFlag = false ∧ calmWorld.listen = Except.ok "127.0.0.1:41275" ∧
      RoutesSucceed sampleConsts calmWorld "127.0.0.1:41275" ∧
      fileWrites (main sampleConsts calmWorld).1 =
        [(["/var/run/casaos", "casaos.url"], "http://127.0.0.1:41275")] :=
  ⟨rfl, rfl, fun _ _ _ => rfl,
    (address_file_content sampleConsts calmWorld "127.0.0.1:41275" rfl rfl
      (fun _ _ _ => rfl)).1⟩

/-- Witness of C9: the run in `softFailWorld`, where the file write and `SdNotify` both fail,
still reaches `s.Serve`. -/
theorem nonfatal_outcomes_reach_serve_witness :
    softFailWorld.versionFlag = false ∧ softFailWorld.listen = Except.ok "127.0.0.1:41275" ∧
      RoutesSucceed sampleConsts softFailWorld "127.0.0.1:41275" ∧
      softFailWorld.writeFile = some "read-only file system" ∧
      softFailWorld.sdNotify = (false, some "notify socket unreachable") ∧
      ∃ pre, (main sampleConsts softFailWorld).1 =
          pre ++ [Event.serve "127.0.0.1:41275" mux 5 none] ++ deferred ∧
        (main sampleConsts softFailWorld).2 = Exit.returned :=
  have h := nonfatal_outcomes_reach_serve sampleConsts softFailWorld "127.0.0.1:41275" rfl rfl
    (fun _ _ _ => rfl)
  ⟨rfl, rfl, fun _ _ _ => rfl, rfl, rfl, h.elim fun pre hp => ⟨pre, hp.1, hp.2.2.2.2⟩⟩

/-- Witness of C10: in `routeFailsWorld` the call of index 3 fails after three successes, and
four calls are made. -/
theorem registration_stops_at_first_failure_witness :
    routeCalls (main sampleConsts routeFailsWorld).1 =
        [ { Path := "/v1/sys", Target := "http://127.0.0.1:41275" },
          { Path := "/v1/port", Target := "http://127.0.0.1:41275" },
          { Path := "/v1/file", Target := "http://127.0.0.1:41275" },
          { Path := "/v1/folder", Target := "http://127.0.0.1:41275" } ] ∧
      (main sampleConsts routeFailsWorld).2 = Exit.panicked "gateway unreachable" :=
  have h := registration_stops_at_first_failure sampleConsts routeFailsWorld "127.0.0.1:41275"
    "gateway unreachable" "/v1/folder" 3 rfl rfl rfl
    (by
      intro j q hj _
      have h3 : j ≠ 3 := by omega
      simp [routeFailsWorld, h3])
    rfl
  ⟨h.1, h.2.2⟩

end CasaOS
